import Mathlib

set_option linter.unusedVariables false

/-!
# Verification of the `bspysmg` training orchestration and plotting helpers

This file gives a shallow embedding of the two source files of the
repository:

* `bspysmg/model/data/outputs/train_model.py` — the functions
  `train_surrogate_model` and `postprocess`;
* `bspysmg/utils/plots.py` — the plotting helpers `plot_error_hist`,
  `plot_error_vs_output`, `plot_waves`, `output_hist`, `iv_plot` and the
  waveform-conversion branch of `multi_iv_plot`.

The external framework functions that the repository imports
(`create_directory_timestamp`, `TorchUtils.init_seed`, `load_data`,
`train`, `WaveformManager.points_to_plateaus`) are not part of the
repository; they are modelled as fields of an `Externals` record that the
embedded orchestration routine consumes, so every theorem is quantified
over their behaviour.  Side effects (directory creation, seeding, the
call into `train`, calls into the plotting library) are recorded as an
explicit event trace, in the order in which the Python statements execute
them.  Numeric array cells are modelled as rationals; a Python dict whose
keys the code accesses is modelled as a record of those keys plus a map
for the remaining keys.
-/

namespace BspySmg

/-- A model is evaluated in `postprocess` by calling it on the whole input
array: `predictions = model(inputs)`. -/
def Model : Type := List ℚ → List ℚ

/-- The `dataset` attribute of a dataloader: indexing with `[:]` yields
the pair `(inputs, targets)` of equally shaped arrays, and `[:1000]`
yields their first 1000 rows. -/
structure Dataset where
  inputs : List ℚ
  targets : List ℚ
  deriving DecidableEq, Repr

/-- Python slice `dataset[:1000]` in `train_surrogate_model`: the first
1000 samples. -/
def Dataset.sliceTo (d : Dataset) (n : ℕ) : Dataset :=
  ⟨d.inputs.take n, d.targets.take n⟩

/-- A dataloader as `train_surrogate_model` uses it: it exposes its
underlying `dataset` and a Python `len` (its number of batches, which the
code compares with 0). -/
structure Dataloader where
  dataset : Dataset
  numBatches : ℕ
  deriving DecidableEq, Repr

/-- The `performances` dict returned by the external `train`; the
orchestration code only reads `performances['performance_history']`. -/
structure Performances where
  performance_history : List ℚ
  deriving DecidableEq, Repr

/-- The `configs` dict, modelled as a record of the keys the orchestration
code accesses (`results_base_dir`, `seed`, `hyperparameters`) together
with the map `rest` of all remaining keys.  `seed = none` models the
absence of the key `'seed'`; `hyperparameters` is an opaque object of
type `α`; `rest` carries opaque objects of type `ρ`. -/
structure Configs (α ρ : Type) where
  results_base_dir : String
  seed : Option ℤ
  hyperparameters : α
  rest : String → Option ρ

/-- Events recorded by the embedded `train_surrogate_model`, one per
side-effecting statement, in program order.  `loadData` records the value
of `configs['seed']` at the moment `load_data(configs)` is called, and
`trainCall` records the dataloaders and `save_dir` passed to the external
`train`. -/
inductive Ev where
  | createDir (base main ret : String)
  | initSeed (seed : Option ℤ) (deterministic : Bool) (ret : ℤ)
  | loadData (seedInConfigs : Option ℤ)
  | trainCall (dl0 dl1 : Dataloader) (saveDir : String)
  | plotAll (targets outputs : List ℚ) (dir label : String)
  | figure
  | plotList (ys : List ℚ)
  | title (s : String)
  | legend (entries : List String)
  | savefig (path : String)
  deriving DecidableEq, Repr

/-- Path concatenation as `os.path.join(a, b)` performs it for a
relative `b` and a non-slash-terminated `a`. -/
def pathJoin (a b : String) : String := a ++ "/" ++ b

/-- The external framework functions imported by
`bspysmg/model/data/outputs/train_model.py`; none of them is implemented
in this repository, so they are parameters of the embedding.  `α` is the
type of the opaque `hyperparameters` object, `ρ` of the remaining config
entries, `β` of the criterion, `γ` of the optimizer and `δ` of the
logger. -/
structure Externals (α ρ β γ δ : Type) where
  create_directory_timestamp : String → String → String
  init_seed : Option ℤ → Bool → ℤ
  load_data : Configs α ρ → (Dataloader × Dataloader × Dataloader) × ℚ
  train : Model → Dataloader × Dataloader → β → γ → α → Option δ → String →
    Model × Performances

/-- The function `postprocess(dataset, model, amplification, results_dir,
label)` from `train_model.py`: it evaluates the model on the whole dataset, rescales
targets and predictions by `amplification`, and hands both to `plot_all`
(recorded as a `plotAll` event). -/
def postprocess (dataset : Dataset) (model : Model) (amplification : ℚ)
    (results_dir label : String) : List Ev :=
  let inputs := dataset.inputs
  let targets := dataset.targets
  let predictions := model inputs
  let train_targets := targets.map (fun t => amplification * t)
  let train_output := predictions.map (fun t => amplification * t)
  [Ev.plotAll train_targets train_output results_dir label]

/-- The list comprehension building `training_profile` in
`train_surrogate_model`:
`[performance_history[i] * amplification ** 2 for i in range(len(performance_history))]`. -/
def trainingProfile (performance_history : List ℚ) (amplification : ℚ) :
    List ℚ :=
  (List.range performance_history.length).map
    (fun i => performance_history.getD i 0 * amplification ^ 2)

/-- The values `train_surrogate_model` produces besides its event trace:
the mutated `configs`, the trained model, the results directory and the
plotted training profile. -/
structure RunResult (α ρ : Type) where
  trace : List Ev
  configs : Configs α ρ
  model : Model
  results_dir : String
  profile : List ℚ

/-- The function `train_surrogate_model(configs, model, criterion,
optimizer, logger, main_folder)` from `train_model.py`, statement by
statement: create the
timestamped results directory; read `configs['seed']` if present (else
`None`); call `TorchUtils.init_seed(seed, deterministic=True)` and store
the result back into `configs['seed']`; call `load_data(configs)`; call
the external `train` once with the training and validation dataloaders
and `save_dir=results_dir`; post-process the three splits (the validation
split falling back to the first 1000 training samples when the validation
dataloader is empty, the test split only when its dataloader is
non-empty); finally plot and save the training profile. -/
def train_surrogate_model {α ρ β γ δ : Type} (ext : Externals α ρ β γ δ)
    (configs : Configs α ρ) (model : Model) (criterion : β) (optimizer : γ)
    (logger : Option δ) (main_folder : String) : RunResult α ρ :=
  let results_dir :=
    ext.create_directory_timestamp configs.results_base_dir main_folder
  let seed : Option ℤ := if configs.seed.isSome then configs.seed else none
  let seed' := ext.init_seed seed true
  let configs' := { configs with seed := some seed' }
  let loaded := ext.load_data configs'
  let dl0 := loaded.1.1
  let dl1 := loaded.1.2.1
  let dl2 := loaded.1.2.2
  let amplification := loaded.2
  let trained := ext.train model (dl0, dl1) criterion optimizer
    configs'.hyperparameters logger results_dir
  let model' := trained.1
  let performances := trained.2
  let post_train :=
    postprocess dl0.dataset model' amplification results_dir "TRAINING"
  let post_val :=
    if 0 < dl1.numBatches then
      postprocess dl1.dataset model' amplification results_dir "VALIDATION"
    else
      postprocess (dl0.dataset.sliceTo 1000) model' amplification
        results_dir "VALIDATION"
  let post_test :=
    if 0 < dl2.numBatches then
      postprocess dl2.dataset model' amplification results_dir "TEST"
    else []
  let training_profile :=
    trainingProfile performances.performance_history amplification
  let trace :=
    [Ev.createDir configs.results_base_dir main_folder results_dir,
     Ev.initSeed seed true seed',
     Ev.loadData configs'.seed,
     Ev.trainCall dl0 dl1 results_dir]
    ++ post_train ++ post_val ++ post_test
    ++ [Ev.figure, Ev.plotList training_profile,
        Ev.title "Training profile", Ev.legend ["training", "validation"],
        Ev.savefig (pathJoin results_dir "training_profile")]
  ⟨trace, configs', model', results_dir, training_profile⟩

/-!
## Embedding of `bspysmg/utils/plots.py`

Each plotting helper is embedded as the list of matplotlib calls it makes,
in program order.  Drawing-only calls (`plot`, `hist`, `title`, axis
labels, layout) are recorded as uninterpreted `draw` events carrying the
name of the call: their pixel-level arguments are figure composition,
which the claims do not touch.  The events that matter to the claims —
`figure`, `show`, `savefig` with its path, `close` — are recorded
exactly. -/

/-- A matplotlib call made by one of the plotting helpers. -/
inductive PlotEff where
  | figure
  | draw (what : String)
  | pltshow
  | savefig (path : String)
  | close
  deriving DecidableEq, Repr

/-- The file paths written by a sequence of matplotlib calls. -/
def savedPaths (tr : List PlotEff) : List String :=
  tr.filterMap (fun e => match e with | .savefig p => some p | _ => none)

/-- The function `plot_error_hist(targets, prediction, error, mse,
save_dir, name='error')` from `plots.py`: one figure, a scatter-plus-
histogram composition, then `savefig(os.path.join(save_dir, name))` and
`close`. -/
def plot_error_hist (targets prediction err : List ℚ) (mse : ℚ)
    (save_dir : String) (name : String) : List PlotEff :=
  [PlotEff.figure, .draw "title", .draw "subplot", .draw "plot",
   .draw "xlabel", .draw "ylabel", .draw "plot", .draw "title",
   .draw "subplot", .draw "hist", .draw "xlim", .draw "title",
   .draw "tight_layout",
   .savefig (pathJoin save_dir name), .close]

/-- The function `plot_error_vs_output(targets, error, save_dir,
name='error_vs_output')` from `plots.py`. -/
def plot_error_vs_output (targets err : List ℚ) (save_dir : String)
    (name : String) : List PlotEff :=
  [PlotEff.figure, .draw "plot", .draw "plot", .draw "title",
   .draw "xlabel", .draw "ylabel",
   .savefig (pathJoin save_dir name), .close]

/-- The function `plot_waves(inputs, outputs, input_no, output_no, batch,
legend, save_directory)` from `plots.py`: the save path is the constant
name `'example_batch'` inside `save_directory`, whatever the batch. -/
def plot_waves (inputs outputs : List ℚ) (input_no output_no batch : ℕ)
    (legend : List String) (save_directory : String) : List PlotEff :=
  [PlotEff.figure, .draw "suptitle", .draw "subplot", .draw "plot",
   .draw "ylabel", .draw "xlabel", .draw "legend", .draw "subplot",
   .draw "plot", .draw "ylabel", .draw "legend", .draw "xlabel",
   .draw "tight_layout",
   .savefig (pathJoin save_directory "example_batch"), .close]

/-- The function `output_hist(outputs, data_dir, bins=100, show=False)`
from `plots.py`: it optionally shows the figure, then unconditionally
saves it to `data_dir + "/output_distribution"` and closes it. -/
def output_hist (outputs : List ℚ) (data_dir : String) (bins : ℕ)
    (shw : Bool) : List PlotEff :=
  [PlotEff.figure, .draw "title", .draw "hist", .draw "ylabel",
   .draw "xlabel"]
  ++ (if shw then [PlotEff.pltshow] else [])
  ++ [PlotEff.savefig (data_dir ++ "/output_distribution"), .close]

/-- A matplotlib call made by `iv_plot`.  Its `savefig` receives the
`save_plot` argument itself, an arbitrary Python object of type `π` (the
declared default is `None`, the docstring talks about a boolean). -/
inductive IVEff (π : Type) where
  | draw (what : String)
  | savefigObj (p : π)
  | pltshow
  deriving DecidableEq, Repr

/-- The objects passed to `savefig` by a sequence of `iv_plot` calls. -/
def ivSaved {π : Type} (tr : List (IVEff π)) : List π :=
  tr.filterMap (fun e => match e with | .savefigObj p => some p | _ => none)

/-- Test whether an `iv_plot` event is a `plt.show()` call. -/
def IVEff.isShow {π : Type} : IVEff π → Bool
  | .pltshow => true
  | _ => false

/-- The function `iv_plot(result, input_electrode, save_plot=None,
show_plot=False)` from `plots.py`: it draws the curve and labels, calls
`plt.savefig(save_plot)` when `save_plot is not None`, and calls
`plt.show()` when `show_plot` is truthy.  It opens no figure of its own
and never closes one. -/
def iv_plot {π : Type} (result : List ℚ) (input_electrode : ℤ)
    (save_plot : Option π) (show_plot : Bool) : List (IVEff π) :=
  [IVEff.draw "plot", .draw "xlabel", .draw "ylabel"]
  ++ (match save_plot with
      | some p => [IVEff.savefigObj p]
      | none => [])
  ++ (if show_plot then [IVEff.pltshow] else [])

/-- Python `int(q)` on a non-negative rational: truncation toward zero,
computed on the reduced fraction. -/
def pyInt (q : ℚ) : ℤ := Int.tdiv q.num (q.den : ℤ)

/-- The dict `{'slope_length': 0, 'plateau_length': ...}` handed to the
external `WaveformManager` constructor in `multi_iv_plot`. -/
structure WMConfig where
  slope_length : ℤ
  plateau_length : ℤ
  deriving DecidableEq, Repr

/-- The entries of `configs['driver']['instruments_setup']` that the
waveform branch of `multi_iv_plot` reads. -/
structure InstrumentsSetup where
  average_io_point_difference : Bool
  readout_sampling_frequency : ℚ
  activation_sampling_frequency : ℚ

/-- The `WaveformManager` configuration built in `multi_iv_plot`:
`slope_length` 0 and `plateau_length` equal to
`int(readout_sampling_frequency / activation_sampling_frequency)`. -/
def multi_iv_wm_config (s : InstrumentsSetup) : WMConfig :=
  ⟨0, pyInt (s.readout_sampling_frequency / s.activation_sampling_frequency)⟩

/-- The x-axis preparation of a masked channel in `multi_iv_plot` (lines
242–246 of `plots.py`): when `average_io_point_difference` is falsy the
input points are replaced by `wm.points_to_plateaus(...)`, where the
conversion itself is the external framework function `points_to_plateaus`
(a parameter here) applied under the configuration built by
`multi_iv_wm_config`; otherwise the points are used as they are. -/
def multi_iv_temp (points_to_plateaus : WMConfig → List ℚ → List ℚ)
    (s : InstrumentsSetup) (points : List ℚ) : List ℚ :=
  if !s.average_io_point_difference then
    points_to_plateaus (multi_iv_wm_config s) points
  else points

/-!
## Helper definitions for the theorems
-/

/-- Test whether an event is the call into the external `train`. -/
def Ev.isTrainCall : Ev → Bool
  | .trainCall _ _ _ => true
  | _ => false

/-- Test whether an event is a `plot_all` call carrying the given label. -/
def Ev.isPlotAllLabel (lab : String) : Ev → Bool
  | .plotAll _ _ _ l => l == lab
  | _ => false

/-- Events that belong to result post-processing or to plotting the
training profile (everything `train_surrogate_model` does after `train`
returns). -/
def Ev.isPostOrProfile : Ev → Bool
  | .plotAll _ _ _ _ => true
  | .figure => true
  | .plotList _ => true
  | .title _ => true
  | .legend _ => true
  | .savefig _ => true
  | _ => false

/-- The seed produced by `TorchUtils.init_seed` during a run: the code
passes `configs['seed']` when the key is present and `None` otherwise,
which under the `Option` modelling is `configs.seed` either way. -/
def seedOf {α ρ β γ δ : Type} (ext : Externals α ρ β γ δ)
    (configs : Configs α ρ) : ℤ :=
  ext.init_seed configs.seed true

/-- The `configs` dict as it stands when `load_data` is called: the
original dict with the fresh seed written into `configs['seed']`. -/
def configsAfterSeed {α ρ β γ δ : Type} (ext : Externals α ρ β γ δ)
    (configs : Configs α ρ) : Configs α ρ :=
  { configs with seed := some (seedOf ext configs) }

/-- The value returned by `load_data(configs)` during a run. -/
def loadedOf {α ρ β γ δ : Type} (ext : Externals α ρ β γ δ)
    (configs : Configs α ρ) : (Dataloader × Dataloader × Dataloader) × ℚ :=
  ext.load_data (configsAfterSeed ext configs)

/-- The results directory created at the start of a run. -/
def resultsDirOf {α ρ β γ δ : Type} (ext : Externals α ρ β γ δ)
    (configs : Configs α ρ) (main_folder : String) : String :=
  ext.create_directory_timestamp configs.results_base_dir main_folder

/-- The value returned by the external `train` during a run. -/
def trainedOf {α ρ β γ δ : Type} (ext : Externals α ρ β γ δ)
    (configs : Configs α ρ) (model : Model) (criterion : β) (optimizer : γ)
    (logger : Option δ) (main_folder : String) : Model × Performances :=
  ext.train model ((loadedOf ext configs).1.1, (loadedOf ext configs).1.2.1)
    criterion optimizer (configsAfterSeed ext configs).hyperparameters
    logger (resultsDirOf ext configs main_folder)

/-- Reading `configs['seed']` through the presence check of the source
(`if 'seed' in configs`) yields just the optional seed. -/
theorem seed_if_eq (o : Option ℤ) :
    (if o.isSome then o else none) = o := by
  cases o <;> rfl

/-!
## Concrete fixtures

Computable instantiations of the external framework used to evaluate the
embedding on closed inputs.  `extW` returns an empty test dataloader;
`extW2` returns a non-empty one.
-/

/-- A concrete external framework whose `load_data` yields an empty test
dataloader. -/
def extW : Externals Unit Unit Unit Unit Unit :=
  { create_directory_timestamp := fun b m => b ++ "/" ++ m ++ "_2020_01_01"
    init_seed := fun s _ => s.getD 7
    load_data := fun _ =>
      ((⟨⟨[1, 2], [3, 4]⟩, 1⟩, ⟨⟨[5], [6]⟩, 1⟩, ⟨⟨[], []⟩, 0⟩), 2)
    train := fun m _ _ _ _ _ _ => (m, ⟨[1, 2]⟩) }

/-- A concrete external framework whose `load_data` yields a non-empty
test dataloader. -/
def extW2 : Externals Unit Unit Unit Unit Unit :=
  { create_directory_timestamp := fun b m => b ++ "/" ++ m ++ "_2020_01_02"
    init_seed := fun s _ => s.getD 7
    load_data := fun _ =>
      ((⟨⟨[1, 2], [3, 4]⟩, 1⟩, ⟨⟨[5], [6]⟩, 1⟩, ⟨⟨[9], [10]⟩, 1⟩), 3)
    train := fun m _ _ _ _ _ _ => (m, ⟨[4]⟩) }

/-- A concrete configuration dict with a `'seed'` entry. -/
def cfgW : Configs Unit Unit := ⟨"base", some 5, (), fun _ => none⟩

/-- A concrete model: the identity response. -/
def mW : Model := fun xs => xs

/-- A concrete external `points_to_plateaus`. -/
def p2pW : WMConfig → List ℚ → List ℚ := fun _ ps => ps ++ ps

/-- A concrete instruments setup with point averaging disabled. -/
def setupW : InstrumentsSetup := ⟨false, 100, 10⟩

/-!
## Theorems for the claims
-/

/-- C6: in `postprocess`, the plotted target array and the plotted output
array handed to `plot_all` are both obtained from the raw dataset targets
and the raw model outputs by one identical linear map, multiplication by
the amplification factor. -/
theorem postprocess_rescales_by_one_map (dataset : Dataset) (model : Model)
    (amplification : ℚ) (results_dir label : String) :
    ∃ f : ℚ → ℚ, (∀ x, f x = amplification * x) ∧
      postprocess dataset model amplification results_dir label =
        [Ev.plotAll (dataset.targets.map f) ((model dataset.inputs).map f)
          results_dir label] :=
  ⟨fun x => amplification * x, fun _ => rfl, rfl⟩

/-- C9: each of `plot_error_hist`, `plot_error_vs_output`, `plot_waves`
and `output_hist` saves exactly one image, under the directory it is
given, and its last matplotlib call is `close`; `output_hist` writes
`data_dir + "/output_distribution"` for either value of its show flag,
and `plot_waves` writes the fixed name `example_batch` for every batch. -/
theorem plots_save_once_and_close
    (targets prediction err outputs inputs : List ℚ) (mse : ℚ)
    (input_no output_no batch bins : ℕ) (legend : List String)
    (save_dir name data_dir save_directory : String) (shw : Bool) :
    (savedPaths (plot_error_hist targets prediction err mse save_dir name)
        = [pathJoin save_dir name]
      ∧ (plot_error_hist targets prediction err mse save_dir name).getLast?
        = some PlotEff.close)
    ∧ (savedPaths (plot_error_vs_output targets err save_dir name)
        = [pathJoin save_dir name]
      ∧ (plot_error_vs_output targets err save_dir name).getLast?
        = some PlotEff.close)
    ∧ (savedPaths (plot_waves inputs outputs input_no output_no batch
          legend save_directory)
        = [pathJoin save_directory "example_batch"]
      ∧ (plot_waves inputs outputs input_no output_no batch legend
          save_directory).getLast? = some PlotEff.close)
    ∧ (savedPaths (output_hist outputs data_dir bins shw)
        = [data_dir ++ "/output_distribution"]
      ∧ (output_hist outputs data_dir bins shw).getLast?
        = some PlotEff.close) := by
  refine ⟨⟨rfl, rfl⟩, ⟨rfl, rfl⟩, ⟨rfl, rfl⟩, ?_, ?_⟩ <;> cases shw <;> rfl

/-- C10: `iv_plot` calls `savefig` exactly on the `save_plot` object
itself when `save_plot` is not `None` and performs no save when it is
`None` (so any non-`None` value, a `False` included, is passed straight
to `savefig`), while `show_plot` independently decides whether
`plt.show()` runs. -/
theorem iv_plot_saves_iff_not_none {π : Type} (result : List ℚ)
    (input_electrode : ℤ) (save_plot : Option π) (show_plot : Bool) :
    ivSaved (iv_plot result input_electrode save_plot show_plot)
        = save_plot.toList
    ∧ (iv_plot result input_electrode save_plot show_plot).countP
        IVEff.isShow = (if show_plot then 1 else 0) := by
  cases save_plot <;> cases show_plot <;> exact ⟨rfl, rfl⟩

/-- C8: the waveform-to-plateau conversion in `multi_iv_plot` is fully
delegated: when `average_io_point_difference` is false the converted
points are exactly what the external `points_to_plateaus` returns on a
`WaveformManager` configuration with `slope_length` 0 and
`plateau_length` the integer part of `readout_sampling_frequency /
activation_sampling_frequency`; likewise the trained model produced by
`train_surrogate_model` is exactly the model component the external
`train` returns. -/
theorem multi_iv_external_plateau_conversion
    (points_to_plateaus : WMConfig → List ℚ → List ℚ)
    (s : InstrumentsSetup) (points : List ℚ)
    (h : s.average_io_point_difference = false) :
    multi_iv_temp points_to_plateaus s points =
      points_to_plateaus
        ⟨0, pyInt (s.readout_sampling_frequency /
          s.activation_sampling_frequency)⟩ points
    ∧ ∀ {α ρ β γ δ : Type} (ext : Externals α ρ β γ δ)
        (configs : Configs α ρ) (model : Model) (criterion : β)
        (optimizer : γ) (logger : Option δ) (main_folder : String),
        (train_surrogate_model ext configs model criterion optimizer logger
          main_folder).model =
        (trainedOf ext configs model criterion optimizer logger
          main_folder).1 := by
  constructor
  · simp [multi_iv_temp, multi_iv_wm_config, h]
  · intro α ρ β γ δ ext configs model criterion optimizer logger main_folder
    simp [train_surrogate_model, trainedOf, loadedOf, configsAfterSeed,
      seedOf, resultsDirOf, seed_if_eq]

/-- Witness for C8 at a concrete setup with averaging disabled. -/
theorem multi_iv_external_plateau_conversion_witness :
    multi_iv_temp p2pW setupW [1] = p2pW ⟨0, 10⟩ [1] := by
  have h := (multi_iv_external_plateau_conversion p2pW setupW [1] rfl).1
  have h10 : setupW.readout_sampling_frequency /
      setupW.activation_sampling_frequency = (10 : ℚ) := by
    norm_num [setupW]
  rw [h10] at h
  have hp : pyInt (10 : ℚ) = 10 := by
    simp [pyInt, Int.tdiv_one]
  rw [hp] at h
  exact h

/-- The training profile has one entry per recorded performance value. -/
theorem trainingProfile_length (h : List ℚ) (a : ℚ) :
    (trainingProfile h a).length = h.length := by
  simp [trainingProfile]

/-- Entrywise value of the training profile. -/
theorem trainingProfile_getD (h : List ℚ) (a : ℚ) (i : ℕ)
    (hi : i < h.length) :
    (trainingProfile h a).getD i 0 = h.getD i 0 * a ^ 2 := by
  unfold trainingProfile
  rw [List.getD_eq_getElem?_getD, List.getElem?_map, List.getElem?_range hi]
  rfl

/-- C5: the training profile plotted at the end of
`train_surrogate_model` has exactly the length of
`performances['performance_history']`, and its `i`-th entry is the `i`-th
performance value multiplied by the square of the amplification. -/
theorem training_profile_scaling {α ρ β γ δ : Type}
    (ext : Externals α ρ β γ δ) (configs : Configs α ρ) (model : Model)
    (criterion : β) (optimizer : γ) (logger : Option δ)
    (main_folder : String) :
    Ev.plotList (train_surrogate_model ext configs model criterion optimizer
        logger main_folder).profile ∈
      (train_surrogate_model ext configs model criterion optimizer logger
        main_folder).trace
    ∧ (train_surrogate_model ext configs model criterion optimizer logger
        main_folder).profile.length =
      (trainedOf ext configs model criterion optimizer logger
        main_folder).2.performance_history.length
    ∧ ∀ i, i < (trainedOf ext configs model criterion optimizer logger
        main_folder).2.performance_history.length →
      (train_surrogate_model ext configs model criterion optimizer logger
        main_folder).profile.getD i 0 =
      (trainedOf ext configs model criterion optimizer logger
        main_folder).2.performance_history.getD i 0 *
        (loadedOf ext configs).2 ^ 2 := by
  have hprof : (train_surrogate_model ext configs model criterion optimizer
      logger main_folder).profile =
      trainingProfile (trainedOf ext configs model criterion optimizer
        logger main_folder).2.performance_history
        (loadedOf ext configs).2 := by
    simp [train_surrogate_model, trainedOf, loadedOf, configsAfterSeed,
      seedOf, resultsDirOf, seed_if_eq]
  refine ⟨?_, ?_, ?_⟩
  · simp [train_surrogate_model, seed_if_eq]
  · rw [hprof, trainingProfile_length]
  · intro i hi
    rw [hprof, trainingProfile_getD _ _ _ hi]

/-- Witness for C5: the first profile entry of a concrete run equals the
first performance value times the squared amplification. -/
theorem training_profile_scaling_witness :
    (train_surrogate_model extW cfgW mW () () none
        "training_data").profile.getD 0 0 =
      (trainedOf extW cfgW mW () () none
        "training_data").2.performance_history.getD 0 0 *
        (loadedOf extW cfgW).2 ^ 2 :=
  (training_profile_scaling extW cfgW mW () () none
    "training_data").2.2 0 (by decide)

/-- C3: `train_surrogate_model` reads `configs['seed']` when present
(`None` otherwise), writes the seed returned by `init_seed` back into
`configs['seed']` before `load_data` runs (the `loadData` event already
carries the new seed), and leaves every other component of the
configuration dict unchanged. -/
theorem configs_seed_frame {α ρ β γ δ : Type}
    (ext : Externals α ρ β γ δ) (configs : Configs α ρ) (model : Model)
    (criterion : β) (optimizer : γ) (logger : Option δ)
    (main_folder : String) :
    (train_surrogate_model ext configs model criterion optimizer logger
        main_folder).configs.seed = some (seedOf ext configs)
    ∧ (train_surrogate_model ext configs model criterion optimizer logger
        main_folder).configs.results_base_dir = configs.results_base_dir
    ∧ (train_surrogate_model ext configs model criterion optimizer logger
        main_folder).configs.hyperparameters = configs.hyperparameters
    ∧ (train_surrogate_model ext configs model criterion optimizer logger
        main_folder).configs.rest = configs.rest
    ∧ (train_surrogate_model ext configs model criterion optimizer logger
        main_folder).trace[1]? =
      some (Ev.initSeed configs.seed true (seedOf ext configs))
    ∧ (train_surrogate_model ext configs model criterion optimizer logger
        main_folder).trace[2]? =
      some (Ev.loadData (some (seedOf ext configs))) := by
  refine ⟨?_, ?_, ?_, ?_, ?_, ?_⟩ <;>
    simp [train_surrogate_model, seedOf, seed_if_eq]

/-- The event trace of a run, written with the helper definitions: the
four orchestration events, the three conditional post-processing blocks,
and the training-profile plotting block, in program order. -/
theorem run_trace_eq {α ρ β γ δ : Type}
    (ext : Externals α ρ β γ δ) (configs : Configs α ρ) (model : Model)
    (criterion : β) (optimizer : γ) (logger : Option δ)
    (main_folder : String) :
    (train_surrogate_model ext configs model criterion optimizer logger
        main_folder).trace =
      [Ev.createDir configs.results_base_dir main_folder
          (resultsDirOf ext configs main_folder),
        Ev.initSeed configs.seed true (seedOf ext configs),
        Ev.loadData (some (seedOf ext configs)),
        Ev.trainCall (loadedOf ext configs).1.1
          (loadedOf ext configs).1.2.1
          (resultsDirOf ext configs main_folder)]
      ++ postprocess (loadedOf ext configs).1.1.dataset
          (trainedOf ext configs model criterion optimizer logger
            main_folder).1 (loadedOf ext configs).2
          (resultsDirOf ext configs main_folder) "TRAINING"
      ++ (if 0 < (loadedOf ext configs).1.2.1.numBatches then
            postprocess (loadedOf ext configs).1.2.1.dataset
              (trainedOf ext configs model criterion optimizer logger
                main_folder).1 (loadedOf ext configs).2
              (resultsDirOf ext configs main_folder) "VALIDATION"
          else
            postprocess ((loadedOf ext configs).1.1.dataset.sliceTo 1000)
              (trainedOf ext configs model criterion optimizer logger
                main_folder).1 (loadedOf ext configs).2
              (resultsDirOf ext configs main_folder) "VALIDATION")
      ++ (if 0 < (loadedOf ext configs).1.2.2.numBatches then
            postprocess (loadedOf ext configs).1.2.2.dataset
              (trainedOf ext configs model criterion optimizer logger
                main_folder).1 (loadedOf ext configs).2
              (resultsDirOf ext configs main_folder) "TEST"
          else [])
      ++ [Ev.figure,
          Ev.plotList (trainingProfile (trainedOf ext configs model
            criterion optimizer logger main_folder).2.performance_history
            (loadedOf ext configs).2),
          Ev.title "Training profile",
          Ev.legend ["training", "validation"],
          Ev.savefig (pathJoin (resultsDirOf ext configs main_folder)
            "training_profile")] := by
  simp only [train_surrogate_model, trainedOf, loadedOf, configsAfterSeed,
    seedOf, resultsDirOf, seed_if_eq, List.append_assoc, List.cons_append,
    List.nil_append]

/-- The dataset post-processed under the label `'VALIDATION'`: the
validation split when its dataloader is non-empty, the first 1000
training samples otherwise. -/
def valDatasetOf {α ρ β γ δ : Type} (ext : Externals α ρ β γ δ)
    (configs : Configs α ρ) : Dataset :=
  if 0 < (loadedOf ext configs).1.2.1.numBatches then
    (loadedOf ext configs).1.2.1.dataset
  else (loadedOf ext configs).1.1.dataset.sliceTo 1000

/-- C4: `train_surrogate_model` never skips validation post-processing:
there is exactly one `plot_all` call labelled `'VALIDATION'`, and it
processes the validation dataset when the validation dataloader is
non-empty and the first 1000 training samples when it is empty. -/
theorem validation_postprocess_fallback {α ρ β γ δ : Type}
    (ext : Externals α ρ β γ δ) (configs : Configs α ρ) (model : Model)
    (criterion : β) (optimizer : γ) (logger : Option δ)
    (main_folder : String) :
    (train_surrogate_model ext configs model criterion optimizer logger
        main_folder).trace.countP (Ev.isPlotAllLabel "VALIDATION") = 1
    ∧ Ev.plotAll
        ((valDatasetOf ext configs).targets.map
          (fun t => (loadedOf ext configs).2 * t))
        (((trainedOf ext configs model criterion optimizer logger
            main_folder).1 (valDatasetOf ext configs).inputs).map
          (fun t => (loadedOf ext configs).2 * t))
        (resultsDirOf ext configs main_folder) "VALIDATION"
      ∈ (train_surrogate_model ext configs model criterion optimizer logger
          main_folder).trace := by
  rw [run_trace_eq]
  by_cases h1 : 0 < (loadedOf ext configs).1.2.1.numBatches <;>
  by_cases h2 : 0 < (loadedOf ext configs).1.2.2.numBatches <;>
  constructor <;>
    simp [postprocess, valDatasetOf, Ev.isPlotAllLabel, h1, h2,
      List.countP_append, List.countP_cons]

/-- C2 (amended): `train_surrogate_model` post-processes the training
split under `'TRAINING'`, always performs exactly one `'VALIDATION'`
post-processing, and post-processes the test split under `'TEST'` exactly
when the test dataloader is non-empty. -/
theorem splits_postprocess_labels {α ρ β γ δ : Type}
    (ext : Externals α ρ β γ δ) (configs : Configs α ρ) (model : Model)
    (criterion : β) (optimizer : γ) (logger : Option δ)
    (main_folder : String) :
    Ev.plotAll
        ((loadedOf ext configs).1.1.dataset.targets.map
          (fun t => (loadedOf ext configs).2 * t))
        (((trainedOf ext configs model criterion optimizer logger
            main_folder).1 (loadedOf ext configs).1.1.dataset.inputs).map
          (fun t => (loadedOf ext configs).2 * t))
        (resultsDirOf ext configs main_folder) "TRAINING"
      ∈ (train_surrogate_model ext configs model criterion optimizer logger
          main_folder).trace
    ∧ (train_surrogate_model ext configs model criterion optimizer logger
        main_folder).trace.countP (Ev.isPlotAllLabel "TRAINING") = 1
    ∧ (train_surrogate_model ext configs model criterion optimizer logger
        main_folder).trace.countP (Ev.isPlotAllLabel "VALIDATION") = 1
    ∧ (train_surrogate_model ext configs model criterion optimizer logger
        main_folder).trace.countP (Ev.isPlotAllLabel "TEST") =
      (if 0 < (loadedOf ext configs).1.2.2.numBatches then 1 else 0)
    ∧ (0 < (loadedOf ext configs).1.2.2.numBatches →
        Ev.plotAll
            ((loadedOf ext configs).1.2.2.dataset.targets.map
              (fun t => (loadedOf ext configs).2 * t))
            (((trainedOf ext configs model criterion optimizer logger
                main_folder).1
                (loadedOf ext configs).1.2.2.dataset.inputs).map
              (fun t => (loadedOf ext configs).2 * t))
            (resultsDirOf ext configs main_folder) "TEST"
          ∈ (train_surrogate_model ext configs model criterion optimizer
              logger main_folder).trace) := by
  rw [run_trace_eq]
  by_cases h1 : 0 < (loadedOf ext configs).1.2.1.numBatches <;>
  by_cases h2 : 0 < (loadedOf ext configs).1.2.2.numBatches <;>
  refine ⟨?_, ?_, ?_, ?_, fun h => ?_⟩ <;>
    first
      | exact absurd h h2
      | simp [postprocess, Ev.isPlotAllLabel, h1, h2,
          List.countP_append, List.countP_cons]

/-- Counterexample to C2 as stated: a concrete successful run whose test
dataloader is empty performs no post-processing labelled `'TEST'` at
all. -/
theorem splits_postprocess_labels_cex :
    (train_surrogate_model extW cfgW mW () () none
        "training_data").trace.countP (Ev.isPlotAllLabel "TEST") = 0 := by
  decide

/-- Witness for C2 (amended) at a concrete run with a non-empty test
dataloader. -/
theorem splits_postprocess_labels_witness :
    Ev.plotAll
        ((loadedOf extW2 cfgW).1.2.2.dataset.targets.map
          (fun t => (loadedOf extW2 cfgW).2 * t))
        (((trainedOf extW2 cfgW mW () () none "training_data").1
            (loadedOf extW2 cfgW).1.2.2.dataset.inputs).map
          (fun t => (loadedOf extW2 cfgW).2 * t))
        (resultsDirOf extW2 cfgW "training_data") "TEST"
      ∈ (train_surrogate_model extW2 cfgW mW () () none
          "training_data").trace :=
  (splits_postprocess_labels extW2 cfgW mW () () none
    "training_data").2.2.2.2 (by decide)

/-- C1: a run's event trace starts with directory creation, then seed
initialization, then `load_data`, then the single call into the external
`train` — carrying the training and validation dataloaders and
`save_dir` equal to the results directory — and everything after that
call is result post-processing or training-profile plotting. -/
theorem pipeline_order {α ρ β γ δ : Type}
    (ext : Externals α ρ β γ δ) (configs : Configs α ρ) (model : Model)
    (criterion : β) (optimizer : γ) (logger : Option δ)
    (main_folder : String) :
    (train_surrogate_model ext configs model criterion optimizer logger
        main_folder).trace.take 4 =
      [Ev.createDir configs.results_base_dir main_folder
          (resultsDirOf ext configs main_folder),
        Ev.initSeed configs.seed true (seedOf ext configs),
        Ev.loadData (some (seedOf ext configs)),
        Ev.trainCall (loadedOf ext configs).1.1
          (loadedOf ext configs).1.2.1
          (resultsDirOf ext configs main_folder)]
    ∧ (train_surrogate_model ext configs model criterion optimizer logger
        main_folder).trace.countP Ev.isTrainCall = 1
    ∧ ((train_surrogate_model ext configs model criterion optimizer logger
        main_folder).trace.drop 4).all Ev.isPostOrProfile = true := by
  rw [run_trace_eq]
  by_cases h1 : 0 < (loadedOf ext configs).1.2.1.numBatches <;>
  by_cases h2 : 0 < (loadedOf ext configs).1.2.2.numBatches <;>
  refine ⟨?_, ?_, ?_⟩ <;>
    simp [postprocess, Ev.isTrainCall, Ev.isPostOrProfile, h1, h2,
      List.countP_append, List.countP_cons, List.all_append]

/-- C7: the orchestration initializes seeding with `deterministic=True`,
and it is a deterministic sequential pipeline — two runs against the same
external framework with equal configurations, models, criteria,
optimizers and loggers produce equal results (the stored seed
included). -/
theorem deterministic_run {α ρ β γ δ : Type}
    (ext : Externals α ρ β γ δ) (c₁ c₂ : Configs α ρ) (m₁ m₂ : Model)
    (cr₁ cr₂ : β) (op₁ op₂ : γ) (lg₁ lg₂ : Option δ) (mf₁ mf₂ : String)
    (hc : c₁ = c₂) (hm : m₁ = m₂) (hcr : cr₁ = cr₂) (hop : op₁ = op₂)
    (hlg : lg₁ = lg₂) (hmf : mf₁ = mf₂) :
    train_surrogate_model ext c₁ m₁ cr₁ op₁ lg₁ mf₁ =
      train_surrogate_model ext c₂ m₂ cr₂ op₂ lg₂ mf₂
    ∧ (train_surrogate_model ext c₁ m₁ cr₁ op₁ lg₁ mf₁).configs.seed =
      (train_surrogate_model ext c₂ m₂ cr₂ op₂ lg₂ mf₂).configs.seed
    ∧ (train_surrogate_model ext c₁ m₁ cr₁ op₁ lg₁ mf₁).trace[1]? =
      some (Ev.initSeed c₁.seed true (seedOf ext c₁)) := by
  subst hc hm hcr hop hlg hmf
  refine ⟨rfl, rfl, ?_⟩
  simp [train_surrogate_model, seedOf, seed_if_eq]

/-- Witness for C7 at a concrete run compared with itself. -/
theorem deterministic_run_witness :
    train_surrogate_model extW cfgW mW () () none "training_data" =
      train_surrogate_model extW cfgW mW () () none "training_data"
    ∧ (train_surrogate_model extW cfgW mW () () none
        "training_data").configs.seed =
      (train_surrogate_model extW cfgW mW () () none
        "training_data").configs.seed
    ∧ (train_surrogate_model extW cfgW mW () () none
        "training_data").trace[1]? =
      some (Ev.initSeed cfgW.seed true (seedOf extW cfgW)) :=
  deterministic_run extW cfgW cfgW mW mW () () () () none none
    "training_data" "training_data" rfl rfl rfl rfl rfl rfl

end BspySmg
